import Mathlib

/-!
Verification of the billing-parser repository: a shallow embedding of the
schema detector, the three provider pipelines (AWS, Azure, GCP), and the
instance-type cache, together with theorems about the documented
properties.  Pandas floating-point cells are modelled as exact rationals,
with `Option ℚ` capturing missing values (NaN); column operations become
list operations; the CSV cells that the pipelines re-parse are kept as
strings and parsed by an explicit decimal-numeral parser.
-/

set_option linter.unusedVariables false

namespace BillingParser

/-! ### String helpers, over character lists -/

/-- Remove every comma from a string, modelling the separator stripping
done by `str.replace(",", "")`. -/
def stripCommas (s : String) : String :=
  String.mk (s.toList.filter (fun c => !(c == ',')))

/-- Accumulator pass returning the segment after the last colon. -/
def lastSegmentAux : List Char → List Char → List Char
  | acc, [] => acc.reverse
  | acc, c :: cs => if c == ':' then lastSegmentAux [] cs else lastSegmentAux (c :: acc) cs

/-- Trailing segment of a string after its last colon, modelling
`str(x).split(":")[-1]`. -/
def lastSegment (s : String) : String :=
  String.mk (lastSegmentAux [] s.toList)

/-- Boolean test that the first character list is an initial run of the
second. -/
def isPrefixB : List Char → List Char → Bool
  | [], _ => true
  | _ :: _, [] => false
  | a :: as, b :: bs => a == b && isPrefixB as bs

/-- Substring containment on character lists. -/
def containsSubAux (pat : List Char) : List Char → Bool
  | [] => isPrefixB pat []
  | c :: cs => isPrefixB pat (c :: cs) || containsSubAux pat cs

/-- Substring containment, modelling the Python `in` operator and
`Series.str.contains` with a metacharacter-free pattern. -/
def strContains (s pat : String) : Bool :=
  containsSubAux pat.toList s.toList

/-! ### Decimal numerals -/

/-- Value of a digit list read in base ten. -/
def digitsToNat (cs : List Char) : Nat :=
  cs.foldl (fun acc c => acc * 10 + (c.toNat - 48)) 0

/-- Parse an unsigned decimal numeral, digits with an optional fractional
part, to an exact rational. -/
def parseUnsigned? (cs : List Char) : Option ℚ :=
  let ip := cs.takeWhile (fun c => c.isDigit)
  let rest := cs.drop ip.length
  match rest with
  | [] => if ip.isEmpty then none else some ((digitsToNat ip : Nat) : ℚ)
  | '.' :: fp =>
    if fp.all (fun c => c.isDigit) && !(ip.isEmpty && fp.isEmpty) then
      some (((digitsToNat ip * 10 ^ fp.length + digitsToNat fp : Nat) : ℚ) / ((10 ^ fp.length : Nat) : ℚ))
    else none
  | _ => none

/-- Parse an optionally signed decimal numeral to an exact rational,
modelling the numeric strings accepted by float() and by the pandas
numeric coercions used in the pipelines. -/
def parseDecimal? (s : String) : Option ℚ :=
  match s.toList with
  | '-' :: cs => (parseUnsigned? cs).map (fun q => -q)
  | '+' :: cs => parseUnsigned? cs
  | cs => parseUnsigned? cs

/-! ### Dates -/

/-- Gregorian leap-year test, as in calendar.isleap. -/
def isLeapYear (y : Nat) : Bool :=
  y % 4 == 0 && (y % 100 != 0 || y % 400 == 0)

/-- Days in a month, as returned by calendar.monthrange. -/
def daysInMonth (y m : Nat) : Nat :=
  if m == 2 then (if isLeapYear y then 29 else 28)
  else if m == 4 || m == 6 || m == 9 || m == 11 then 30
  else 31

/-- A calendar date, the parsed form of the timestamp columns. -/
structure Date where
  year : Nat
  month : Nat
  day : Nat
deriving DecidableEq

/-- Days contained in the full months preceding month m of year y. -/
def daysBeforeMonth (y m : Nat) : Nat :=
  (List.range (m - 1)).foldl (fun acc i => acc + daysInMonth y (i + 1)) 0

/-- Proleptic Gregorian day ordinal; only differences of ordinals are used,
modelling subtraction of timestamps measured in days. -/
def Date.ordinal (d : Date) : Nat :=
  365 * (d.year - 1) + ((d.year - 1) / 4 + (d.year - 1) / 400 - (d.year - 1) / 100)
    + daysBeforeMonth d.year d.month + d.day

/-! ### Missing-value arithmetic (NaN as none) -/

/-- Multiplication where a missing operand gives a missing result. -/
def nmul : Option ℚ → Option ℚ → Option ℚ
  | some a, some b => some (a * b)
  | _, _ => none

/-- Division of a possibly missing value by a scalar. -/
def ndiv (a : Option ℚ) (b : ℚ) : Option ℚ :=
  a.map (fun x => x / b)

/-- Column sum that skips missing values, as the pandas sum with skipna
does. -/
def nsum (l : List (Option ℚ)) : ℚ :=
  l.foldl (fun acc x => acc + x.getD 0) 0

/-! ### Summary tables -/

/-- One row of a summary table: a group label and the three category
columns of the provider. -/
structure SRow where
  label : String
  c1 : ℚ
  c2 : ℚ
  c3 : ℚ
deriving DecidableEq

/-- Sum of the first category column. -/
def colSum1 (l : List SRow) : ℚ := (l.map SRow.c1).sum

/-- Sum of the second category column. -/
def colSum2 (l : List SRow) : ℚ := (l.map SRow.c2).sum

/-- Sum of the third category column. -/
def colSum3 (l : List SRow) : ℚ := (l.map SRow.c3).sum

/-- Deduplication keeping first occurrences, with an accumulator of keys
already seen. -/
def dedupAux : List String → List String → List String
  | _, [] => []
  | seen, k :: ks => if seen.contains k then dedupAux seen ks else k :: dedupAux (k :: seen) ks

/-- Insertion into a sorted list of strings. -/
def insertSorted (s : String) : List String → List String
  | [] => [s]
  | x :: xs => if s ≤ x then s :: x :: xs else x :: insertSorted s xs

/-- Insertion sort on strings. -/
def sortStrings (l : List String) : List String := l.foldr insertSorted []

/-- Group keys in the order produced by groupby: distinct keys, sorted. -/
def groupKeys (l : List String) : List String := sortStrings (dedupAux [] l)

/-- Grouped summary rows: one row per key, fields are the NaN-skipping
sums of the three category columns over the rows of the group; rows whose
key is missing belong to no group, as in the pandas groupby. -/
def groupRows {α : Type} (key : α → Option String) (f1 f2 f3 : α → Option ℚ)
    (d : List α) : List SRow :=
  let keyed := d.filterMap (fun x => (key x).map (fun k => (k, x)))
  (groupKeys (keyed.map Prod.fst)).map (fun k =>
    let g := (keyed.filter (fun p => p.1 == k)).map Prod.snd
    { label := k, c1 := nsum (g.map f1), c2 := nsum (g.map f2), c3 := nsum (g.map f3) })

/-- Append the synthetic Total row holding the column-wise sums of the
group rows. -/
def withTotal (groups : List SRow) : List SRow :=
  groups ++ [{ label := "Total", c1 := colSum1 groups, c2 := colSum2 groups,
               c3 := colSum3 groups }]

/-- The table ends with a row labeled Total, and each category column of
that row equals the sum of the column over the preceding group rows. -/
def TotalRowOk (l : List SRow) : Prop :=
  match l.getLast? with
  | none => False
  | some t => t.label = "Total" ∧ t.c1 = colSum1 l.dropLast ∧ t.c2 = colSum2 l.dropLast
      ∧ t.c3 = colSum3 l.dropLast

/-! ### Schema detector -/

/-- The provider tag carried alongside the selected pipeline. -/
inductive Provider where
  | aws
  | azure
  | gcp
deriving DecidableEq

/-- Required header columns for the AWS schema. -/
def awsRequiredColumns : List String :=
  ["RecordType", "LinkedAccountId", "UsageStartDate", "UsageType", "UsageQuantity"]

/-- Required header columns for the Azure schema. -/
def azureRequiredColumns : List String :=
  ["billingPeriodStartDate", "unitOfMeasure", "product", "quantity", "meterCategory",
   "invoiceSectionName", "additionalInfo"]

/-- Required header columns for the GCP schema. -/
def gcpRequiredColumns : List String :=
  ["Usage amount", "SKU description", "Usage unit", "Usage start date", "Usage end date",
   "Project ID"]

/-- Membership of every required column in the header. -/
def hasAll (header required : List String) : Bool :=
  required.all (fun c => header.contains c)

/-- Classify a header, in the priority order AWS, Azure, GCP, returning
the human-readable label plus provider tag of the first match, and the
sentinel pair of an empty label with no provider when nothing matches. -/
def getCsvParser (header : List String) : String × Option Provider :=
  if hasAll header awsRequiredColumns then ("AWS Billing Summary", some Provider.aws)
  else if hasAll header azureRequiredColumns then ("Azure Billing Summary", some Provider.azure)
  else if hasAll header gcpRequiredColumns then ("GCP Billing Summary", some Provider.gcp)
  else ("", none)

/-! ### AWS pipeline -/

namespace Aws

/-- One parsed CSV row of an AWS billing export, with the account id
columns read as optional strings (dtype str, empty as missing), the start
date already parsed by to_datetime, and the usage quantity kept as the raw
cell so that dtype inference and separator stripping can be modelled. -/
structure Row where
  recordType : String
  linkedAccountId : Option String
  payerAccountId : Option String
  usageStartDate : Date
  usageType : String
  usageQuantityRaw : Option String
  productCode : String
deriving DecidableEq

/-- Failures that abort the AWS run: the str accessor applied to a column
that was inferred numeric, or a quantity that is not numeric after the
separator stripping. -/
inductive Error where
  | strAccessor
  | badQuantity (s : String)
deriving DecidableEq

/-- A cell that pandas numeric dtype inference accepts: empty, hence
missing, or a plain decimal numeral. -/
def numericCell : Option String → Bool
  | none => true
  | some s => (parseDecimal? s).isSome

/-- Drop the pre-aggregated AccountTotal rows. -/
def filterTotals (rows : List Row) : List Row :=
  rows.filter (fun r => !(r.recordType == "AccountTotal"))

/-- When every linked account id is missing, recover it from the payer
account id on the PayerLineItem rows only; otherwise leave the rows
unchanged. -/
def recover (rows : List Row) : List Row :=
  if rows.all (fun r => r.linkedAccountId.isNone) then
    rows.map (fun r =>
      if r.recordType == "PayerLineItem" then { r with linkedAccountId := r.payerAccountId }
      else r)
  else rows

/-- Drop the rows without a linked account id, pairing each survivor with
its id. -/
def keepResolved (rows : List Row) : List (Row × String) :=
  rows.filterMap (fun r => r.linkedAccountId.map (fun a => (r, a)))

/-- The rows surviving the filtering steps, in order: AccountTotal rows
removed, payer recovery applied, unresolved rows dropped. -/
def kept (rows : List Row) : List (Row × String) :=
  keepResolved (recover (filterTotals rows))

/-- Strip the thousands separators from a quantity cell and convert it, an
empty cell staying missing; a remainder that is not numeric is a data
error carrying the raw cell. -/
def convertQty : Option String → Except Error (Option ℚ)
  | none => Except.ok none
  | some s =>
    match parseDecimal? (stripCommas s) with
    | some q => Except.ok (some q)
    | none => Except.error (Error.badQuantity s)

/-- Convert the quantity cell of every kept row, stopping at the first
data error, as the column-wide astype conversion does. -/
def convertAll : List (Row × String) → Except Error (List (Row × String × Option ℚ))
  | [] => Except.ok []
  | p :: rest =>
    match convertQty p.1.usageQuantityRaw with
    | Except.error e => Except.error e
    | Except.ok q =>
      match convertAll rest with
      | Except.error e => Except.error e
      | Except.ok l => Except.ok ((p.1, p.2, q) :: l)

/-- One row of the AWS detail table: the input row plus every derived
column. -/
structure Detail where
  row : Row
  linkedAccountId : String
  month : Nat
  year : Nat
  numDaysInMonth : Nat
  numHoursInMonth : ℚ
  usageQuantity : Option ℚ
  instanceName : Option String
  instanceVCPU : Option ℚ
  numInstances : Option ℚ
  ec2 : Option ℚ
  lambdaUsage : Option ℚ
  fargate : Option ℚ
deriving DecidableEq

/-- Qualifying condition of the Lambda category. -/
def lambdaMask (r : Row) : Bool :=
  r.productCode == "AWSLambda" && strContains r.usageType "Lambda-GB-Second"

/-- Qualifying condition of the Fargate category. -/
def fargateMask (r : Row) : Bool :=
  r.productCode == "AmazonECS" && strContains r.usageType "Fargate-vCPU-Hours:perCPU"

/-- Compute every derived column of one kept row, given the instance-type
lookup table. -/
def derive (instanceTypes : List (String × Nat)) (t : Row × String × Option ℚ) : Detail :=
  let r := t.1
  let q := t.2.2
  let days := daysInMonth r.usageStartDate.year r.usageStartDate.month
  let hours : ℚ := ((days * 24 : Nat) : ℚ)
  let iname := lastSegment r.usageType
  let vcpu : Option ℚ := (instanceTypes.lookup iname).map (fun n => ((n : Nat) : ℚ))
  let numInst : Option ℚ :=
    match vcpu with
    | some _ => ndiv q hours
    | none => none
  { row := r
    linkedAccountId := t.2.1
    month := r.usageStartDate.month
    year := r.usageStartDate.year
    numDaysInMonth := days
    numHoursInMonth := hours
    usageQuantity := q
    instanceName := if vcpu.isSome then some iname else none
    instanceVCPU := vcpu
    numInstances := numInst
    ec2 := nmul vcpu numInst
    lambdaUsage := if lambdaMask r then ndiv q (3600 * 1024 * hours) else some 0
    fargate := if fargateMask r then ndiv q hours else some 0 }

/-- The AWS detail table, or the error aborting the run: the str accessor
fails when every raw quantity cell of the file was numeric, so that the
column was inferred numeric at read time; otherwise each kept row is
converted and derived. -/
def detailTable (rows : List Row) (instanceTypes : List (String × Nat)) :
    Except Error (List Detail) :=
  if rows.all (fun r => numericCell r.usageQuantityRaw) then Except.error Error.strAccessor
  else (convertAll (kept rows)).map (fun l => l.map (derive instanceTypes))

/-- The AWS summary table: group by linked account id, sum the three
category columns, append the Total row. -/
def summary (d : List Detail) : List SRow :=
  withTotal (groupRows (fun x => some x.linkedAccountId) Detail.ec2 Detail.lambdaUsage
    Detail.fargate d)

/-- The AWS pipeline: detail table plus summary table, or the aborting
error. -/
def parse_billing_csv (rows : List Row) (instanceTypes : List (String × Nat)) :
    Except Error (List Detail × List SRow) :=
  (detailTable rows instanceTypes).map (fun d => (d, summary d))

/-- Boolean success test of an AWS run. -/
def exOk {α : Type} : Except Error α → Bool
  | Except.ok _ => true
  | Except.error _ => false

/-- The detail table of a successful run, an empty table on error. -/
def detailTableOf (rows : List Row) (instanceTypes : List (String × Nat)) : List Detail :=
  match detailTable rows instanceTypes with
  | Except.ok d => d
  | Except.error _ => []

/-- The summary table of a successful run, an empty table on error. -/
def summaryOf (rows : List Row) (instanceTypes : List (String × Nat)) : List SRow :=
  match parse_billing_csv rows instanceTypes with
  | Except.ok p => p.2
  | Except.error _ => []

/-- The converted quantity of a row whose conversion succeeds, missing
otherwise. -/
def qtyOf (r : Row) : Option ℚ :=
  match convertQty r.usageQuantityRaw with
  | Except.ok q => q
  | Except.error _ => none

/-- A present quantity cell that is still not numeric after the separator
stripping: exactly the cells raising the data error. -/
def badCell (r : Row) : Bool :=
  match r.usageQuantityRaw with
  | none => false
  | some s => !(parseDecimal? (stripCommas s)).isSome

end Aws

/-! ### Azure pipeline -/

namespace Azure

/-- One parsed CSV row of an Azure billing export; the additionalInfo cell
is modelled in parsed form, none standing for a missing cell, one that is
not valid JSON, or one whose JSON is not a flat object of integers. -/
structure Row where
  billingPeriodStartDate : Date
  additionalInfo : Option (List (String × Int))
  unitOfMeasure : String
  quantity : Option ℚ
  product : String
  meterCategory : String
  invoiceSectionName : Option String
deriving DecidableEq

/-- Extract the vCPU count from the additionalInfo payload; a missing or
malformed payload, and one without the VCPUs key, yield zero. -/
def extract_vcpu (additionalInfo : Option (List (String × Int))) : Int :=
  match additionalInfo with
  | none => 0
  | some kvs =>
    match kvs.lookup "VCPUs" with
    | some v => v
    | none => 0

/-- One row of the Azure detail table with every derived column. -/
structure Detail where
  row : Row
  numHoursInMonth : ℚ
  numSecondsInMonth : ℚ
  instanceVCPU : Int
  monthlyUsage : Option ℚ
  totalVMs : Option ℚ
  totalFunctions : Option ℚ
  totalAppServices : Option ℚ
deriving DecidableEq

/-- Compute every derived column of one Azure row. -/
def derive (r : Row) : Detail :=
  let days := daysInMonth r.billingPeriodStartDate.year r.billingPeriodStartDate.month
  let hours : ℚ := ((days * 24 : Nat) : ℚ)
  let seconds : ℚ := hours * 3600
  let vcpu := extract_vcpu r.additionalInfo
  let mu : Option ℚ := if r.unitOfMeasure == "1 Hour" then ndiv r.quantity hours else some 0
  { row := r
    numHoursInMonth := hours
    numSecondsInMonth := seconds
    instanceVCPU := vcpu
    monthlyUsage := mu
    totalVMs := nmul (some ((vcpu : Int) : ℚ)) mu
    totalFunctions := if r.product == "Functions" then ndiv r.quantity seconds else some 0
    totalAppServices :=
      if r.meterCategory == "Azure App Service" then ndiv r.quantity hours else some 0 }

/-- The Azure detail table: every row is derived, none is dropped. -/
def detailTable (rows : List Row) : List Detail :=
  rows.map derive

/-- The Azure summary table: group by invoice section name, sum the three
category columns, append the Total row. -/
def summary (d : List Detail) : List SRow :=
  withTotal (groupRows (fun x => x.row.invoiceSectionName) Detail.totalVMs
    Detail.totalFunctions Detail.totalAppServices d)

/-- The Azure pipeline: detail table plus summary table. -/
def parse_billing_csv (rows : List Row) : List Detail × List SRow :=
  (detailTable rows, summary (detailTable rows))

end Azure

/-! ### GCP pipeline -/

namespace Gcp

/-- One parsed CSV row of a GCP billing export, the dates already parsed
and the usage amount kept raw for the numeric coercion. -/
structure Row where
  usageStartDate : Date
  usageEndDate : Date
  usageAmountRaw : Option String
  skuDescription : String
  usageUnit : String
  serviceDescription : String
  projectId : Option String
deriving DecidableEq

/-- Numeric coercion of the usage amount with coerce: a missing or
non-numeric cell becomes missing. -/
def usageAmount (r : Row) : Option ℚ :=
  r.usageAmountRaw.bind parseDecimal?

/-- File-global period length in hours: the span from the minimum start
date to the maximum end date over all rows, inclusive of both endpoints,
measured in days and multiplied by 24. -/
def hoursPerMonth (rows : List Row) : ℚ :=
  match rows with
  | [] => 0
  | r :: rs =>
    let minStart := rs.foldl (fun a x => min a x.usageStartDate.ordinal) r.usageStartDate.ordinal
    let maxEnd := rs.foldl (fun a x => max a x.usageEndDate.ordinal) r.usageEndDate.ordinal
    ((((maxEnd : Int) - (minStart : Int) + 1 : Int)) : ℚ) * 24

/-- Monthly usage fraction of a row for a given period length: the amount
per period hour for an hourly unit, per period second for the two
per-second units, zero otherwise. -/
def monthlyUsage (hpm : ℚ) (r : Row) : Option ℚ :=
  if r.usageUnit == "hour" then ndiv (usageAmount r) hpm
  else if r.usageUnit == "vCPU-second" then ndiv (usageAmount r) (hpm * 60 * 60)
  else if r.usageUnit == "GHz-second" then ndiv (usageAmount r) (hpm * 60 * 60)
  else some 0

/-- One row of the GCP detail table with every derived column. -/
structure Detail where
  row : Row
  usageAmount : Option ℚ
  monthlyUsage : Option ℚ
  computeEngine : Option ℚ
  appEngine : Option ℚ
  cloudFunctions : Option ℚ
deriving DecidableEq

/-- Compute every derived column of one GCP row for a given period
length. -/
def derive (hpm : ℚ) (r : Row) : Detail :=
  let mu := monthlyUsage hpm r
  { row := r
    usageAmount := usageAmount r
    monthlyUsage := mu
    computeEngine :=
      if strContains r.skuDescription "Instance Core" && (r.serviceDescription == "Compute Engine")
      then mu else some 0
    appEngine :=
      if strContains r.skuDescription "Instance Core" && (r.serviceDescription == "App Engine")
      then mu else some 0
    cloudFunctions :=
      if strContains r.skuDescription "CPU Time" && (r.serviceDescription == "Cloud Functions")
      then mu else some 0 }

/-- The GCP detail table: the single file-global period length is derived
once and applied to every row; an empty file has no period and no
output. -/
def detailTable : List Row → Option (List Detail)
  | [] => none
  | r :: rs => some ((r :: rs).map (derive (hoursPerMonth (r :: rs))))

/-- The GCP summary table: group by project id, sum the three category
columns, append the Total row. -/
def summary (d : List Detail) : List SRow :=
  withTotal (groupRows (fun x => x.row.projectId) Detail.computeEngine Detail.appEngine
    Detail.cloudFunctions d)

/-- The GCP pipeline: detail table plus summary table. -/
def parse_billing_csv (rows : List Row) : Option (List Detail × List SRow) :=
  (detailTable rows).map (fun d => (d, summary d))

/-- The detail table of a successful run, an empty table otherwise. -/
def detailTableOf (rows : List Row) : List Detail :=
  (detailTable rows).getD []

/-- The summary table of a successful run, an empty table otherwise. -/
def summaryOf (rows : List Row) : List SRow :=
  match parse_billing_csv rows with
  | some p => p.2
  | none => []

end Gcp

/-! ### Instance-type cache -/

namespace Cache

/-- A parsed JSON value, the result of a successful json.load. -/
inductive JVal where
  | jnum (n : Int)
  | jstr (s : String)
  | jarr (elems : List JVal)
  | jobj (entries : List (String × JVal))

/-- The failure raised when the parsed cache content does not support the
dict get method. -/
inductive CacheError where
  | attributeError
deriving DecidableEq

/-- JSON encoding of an instance-type mapping. -/
def encodeTypes (m : List (String × Int)) : JVal :=
  JVal.jobj (m.map (fun p => (p.1, JVal.jnum p.2)))

/-- Read an instance-type mapping back out of a list of JSON object
entries. -/
def decodeEntries : List (String × JVal) → Option (List (String × Int))
  | [] => some []
  | p :: rest =>
    match p.2, decodeEntries rest with
    | JVal.jnum n, some l => some ((p.1, n) :: l)
    | _, _ => none

/-- Read an instance-type mapping back out of a JSON value. -/
def decodeTypes : JVal → Option (List (String × Int))
  | JVal.jobj entries => decodeEntries entries
  | _ => none

/-- Contents written to the cache file: the mapping wrapped in the single
instance_types field. -/
def save_instance_types_to_cache (m : List (String × Int)) : Option JVal :=
  some (JVal.jobj [("instance_types", encodeTypes m)])

/-- Boolean test that a JSON value is an object. -/
def isObj : JVal → Bool
  | JVal.jobj _ => true
  | _ => false

/-- Read the cache file, modelled as the JSON value it parses to, none
standing for an absent file or one that does not parse as JSON: those two
cases are caught and give an empty cache; a parsed top-level object yields
the value stored under the instance_types key, defaulting to an empty
object; any other parsed top-level value makes the dict get call raise an
AttributeError. -/
def load_instance_types_from_cache (file : Option JVal) : Except CacheError JVal :=
  match file with
  | none => Except.ok (JVal.jobj [])
  | some (JVal.jobj entries) =>
    Except.ok ((entries.lookup "instance_types").getD (JVal.jobj []))
  | some _ => Except.error CacheError.attributeError

end Cache

/-! ### Concrete example files used to instantiate the theorems -/

/-- An AWS file with one ordinary line item; the quantity carries a
thousands separator, so the column is read as text. -/
def c1AwsRows : List Aws.Row :=
  [{ recordType := "LineItem", linkedAccountId := some "111122223333",
     payerAccountId := some "111122223333", usageStartDate := ⟨2024, 1, 5⟩,
     usageType := "APN1-BoxUsage:m5.large", usageQuantityRaw := some "1,488",
     productCode := "AmazonEC2" }]

/-- An instance-type lookup with one entry. -/
def c1Types : List (String × Nat) := [("m5.large", 2)]

/-- An Azure file with one hourly virtual-machine row. -/
def c1AzureRows : List Azure.Row :=
  [{ billingPeriodStartDate := ⟨2024, 1, 1⟩, additionalInfo := some [("VCPUs", 4)],
     unitOfMeasure := "1 Hour", quantity := some 372, product := "Virtual Machines",
     meterCategory := "Virtual Machines", invoiceSectionName := some "section-a" }]

/-- A GCP file with one hourly compute row spanning January 2024. -/
def c1GcpRows : List Gcp.Row :=
  [{ usageStartDate := ⟨2024, 1, 1⟩, usageEndDate := ⟨2024, 1, 31⟩,
     usageAmountRaw := some "372", skuDescription := "N1 Predefined Instance Core running",
     usageUnit := "hour", serviceDescription := "Compute Engine",
     projectId := some "proj-1" }]

/-- A header holding every AWS required column plus unrelated extras. -/
def c2AwsHeader : List String :=
  "ProductCode" :: "PayerAccountId" :: awsRequiredColumns ++ ["SomeExtraColumn"]

/-- A header matching no provider. -/
def c2BadHeader : List String := ["Alpha", "Beta"]

/-- An AWS row with an unresolvable instance type, qualifying for no
category; the comma keeps the column textual. -/
def c3AwsRow : Aws.Row :=
  { recordType := "LineItem", linkedAccountId := some "111122223333",
    payerAccountId := some "111122223333", usageStartDate := ⟨2024, 1, 5⟩,
    usageType := "APN1-DataTransfer-Out-Bytes", usageQuantityRaw := some "1,024",
    productCode := "AWSDataTransfer" }

/-- An AWS file holding only the c3 row. -/
def c3AwsRows : List Aws.Row := [c3AwsRow]

/-- The derived detail row of the c3 AWS file. -/
def c3AwsDetail : Aws.Detail :=
  Aws.derive [] (c3AwsRow, "111122223333", Aws.qtyOf c3AwsRow)

/-- An Azure row qualifying for no category. -/
def c3AzureRow : Azure.Row :=
  { billingPeriodStartDate := ⟨2024, 1, 1⟩, additionalInfo := none,
    unitOfMeasure := "1 GB", quantity := some 10, product := "Storage",
    meterCategory := "Storage", invoiceSectionName := some "section-a" }

/-- A GCP row qualifying for no category. -/
def c3GcpRow : Gcp.Row :=
  { usageStartDate := ⟨2024, 1, 1⟩, usageEndDate := ⟨2024, 1, 31⟩,
    usageAmountRaw := some "5", skuDescription := "Network Egress",
    usageUnit := "gibibyte", serviceDescription := "Networking", projectId := some "proj-1" }

/-- The GCP row of the documented example: start date the first and end
date the last of January 2024, hourly unit, usage amount 372. -/
def c4GcpRow : Gcp.Row :=
  { usageStartDate := ⟨2024, 1, 1⟩, usageEndDate := ⟨2024, 1, 31⟩,
    usageAmountRaw := some "372", skuDescription := "N1 Predefined Instance Core running",
    usageUnit := "hour", serviceDescription := "Compute Engine",
    projectId := some "proj-1" }

/-- The GCP file of the documented example. -/
def c4GcpRows : List Gcp.Row := [c4GcpRow]

/-- The m5.large row of the documented compute example: quantity 744 in a
31-day month. -/
def c5AwsRow : Aws.Row :=
  { recordType := "LineItem", linkedAccountId := some "111122223333",
    payerAccountId := some "111122223333", usageStartDate := ⟨2024, 1, 1⟩,
    usageType := "APN1-BoxUsage:m5.large", usageQuantityRaw := some "744",
    productCode := "AmazonEC2" }

/-- The second row of the compute example file, whose separator keeps the
quantity column textual. -/
def c5AwsRow2 : Aws.Row :=
  { recordType := "LineItem", linkedAccountId := some "111122223333",
    payerAccountId := some "111122223333", usageStartDate := ⟨2024, 1, 1⟩,
    usageType := "APN1-DataTransfer-Out-Bytes", usageQuantityRaw := some "1,024",
    productCode := "AWSDataTransfer" }

/-- An AWS file realising the documented compute example. -/
def c5AwsRows : List Aws.Row := [c5AwsRow, c5AwsRow2]

/-- The derived detail row of the m5.large row of the c5 file. -/
def c5AwsDetail : Aws.Detail :=
  Aws.derive c1Types (c5AwsRow, "111122223333", Aws.qtyOf c5AwsRow)

/-- The derived detail row of the second row of the c5 file. -/
def c5AwsDetail2 : Aws.Detail :=
  Aws.derive c1Types (c5AwsRow2, "111122223333", Aws.qtyOf c5AwsRow2)

/-- An AccountTotal row. -/
def c6AwsRowTotal : Aws.Row :=
  { recordType := "AccountTotal", linkedAccountId := some "111122223333",
    payerAccountId := some "111122223333", usageStartDate := ⟨2024, 1, 5⟩,
    usageType := "Total", usageQuantityRaw := some "9,999", productCode := "Total" }

/-- A row without a linked account id. -/
def c6AwsRowNoId : Aws.Row :=
  { recordType := "LineItem", linkedAccountId := none,
    payerAccountId := some "111122223333", usageStartDate := ⟨2024, 1, 5⟩,
    usageType := "APN1-BoxUsage:m5.large", usageQuantityRaw := some "1,488",
    productCode := "AmazonEC2" }

/-- An ordinary row with a linked account id. -/
def c6AwsRowOk : Aws.Row :=
  { recordType := "LineItem", linkedAccountId := some "444455556666",
    payerAccountId := some "111122223333", usageStartDate := ⟨2024, 1, 5⟩,
    usageType := "APN1-BoxUsage:m5.large", usageQuantityRaw := some "1,488",
    productCode := "AmazonEC2" }

/-- An AWS file holding an AccountTotal row, a row without a linked
account id, and an ordinary row. -/
def c6AwsRows : List Aws.Row := [c6AwsRowTotal, c6AwsRowNoId, c6AwsRowOk]

/-- The derived detail row of the ordinary row of the c6 file. -/
def c6AwsDetailOk : Aws.Detail :=
  Aws.derive c1Types (c6AwsRowOk, "444455556666", Aws.qtyOf c6AwsRowOk)

/-- A PayerLineItem row without a linked account id. -/
def c6AwsPayerRow : Aws.Row :=
  { recordType := "PayerLineItem", linkedAccountId := none,
    payerAccountId := some "999988887777", usageStartDate := ⟨2024, 1, 5⟩,
    usageType := "APN1-BoxUsage:m5.large", usageQuantityRaw := some "1,488",
    productCode := "AmazonEC2" }

/-- An ordinary row without a linked account id. -/
def c6AwsOtherRow : Aws.Row :=
  { recordType := "LineItem", linkedAccountId := none,
    payerAccountId := some "999988887777", usageStartDate := ⟨2024, 1, 5⟩,
    usageType := "APN1-DataTransfer-Out-Bytes", usageQuantityRaw := some "1,024",
    productCode := "AWSDataTransfer" }

/-- An AWS file in which every linked account id is absent. -/
def c6AwsAllNullRows : List Aws.Row := [c6AwsPayerRow, c6AwsOtherRow]

/-- An Azure row whose additionalInfo payload lacks the VCPUs key. -/
def c7AzureRow : Azure.Row :=
  { billingPeriodStartDate := ⟨2024, 1, 1⟩, additionalInfo := some [("Cores", 4)],
    unitOfMeasure := "1 Hour", quantity := some 10, product := "Virtual Machines",
    meterCategory := "Virtual Machines", invoiceSectionName := some "section-a" }

/-- An AWS file whose quantity cells are all plain numerals, so that the
quantity column is inferred numeric at read time. -/
def c8AwsRows : List Aws.Row :=
  [{ recordType := "LineItem", linkedAccountId := some "111122223333",
     payerAccountId := some "111122223333", usageStartDate := ⟨2024, 1, 5⟩,
     usageType := "APN1-BoxUsage:m5.large", usageQuantityRaw := some "744",
     productCode := "AmazonEC2" }]

/-- An instance-type mapping with two entries. -/
def c9Types : List (String × Int) := [("m5.large", 2), ("t2.micro", 1)]

/-- A well-formed AWS file for the implicit abort claim: two ordinary
rows, every quantity a plain numeral without separators. -/
def c10AwsRows : List Aws.Row :=
  [{ recordType := "LineItem", linkedAccountId := some "111122223333",
     payerAccountId := some "111122223333", usageStartDate := ⟨2024, 1, 5⟩,
     usageType := "APN1-BoxUsage:m5.large", usageQuantityRaw := some "744",
     productCode := "AmazonEC2" },
   { recordType := "LineItem", linkedAccountId := some "444455556666",
     payerAccountId := some "111122223333", usageStartDate := ⟨2024, 1, 6⟩,
     usageType := "APN1-BoxUsage:m5.large", usageQuantityRaw := some "2.5",
     productCode := "AmazonEC2" }]

/-- The header of the c10 file: the AWS required columns plus the other
columns the pipeline reads. -/
def c10Header : List String :=
  awsRequiredColumns ++ ["ProductCode", "PayerAccountId"]

/-! ### Shared lemmas -/

/-- Appending the Total row always yields a table satisfying the Total-row
invariant. -/
theorem totalRowOk_withTotal (g : List SRow) : TotalRowOk (withTotal g) := by
  simp [withTotal, TotalRowOk, List.getLast?_concat, List.dropLast_concat]

/-- Every triple produced by a successful conversion pass comes from the
input list and carries the converted quantity of its own row. -/
theorem aws_convertAll_mem (l : List (Aws.Row × String)) :
    ∀ l', Aws.convertAll l = Except.ok l' → ∀ t, t ∈ l' →
      (t.1, t.2.1) ∈ l ∧ Aws.convertQty t.1.usageQuantityRaw = Except.ok t.2.2 := by
  induction l with
  | nil =>
    intro l' h t ht
    simp only [Aws.convertAll, Except.ok.injEq] at h
    subst h
    simp at ht
  | cons p rest ih =>
    intro l' h t ht
    rw [Aws.convertAll] at h
    cases hq : Aws.convertQty p.1.usageQuantityRaw with
    | error e => rw [hq] at h; simp at h
    | ok q =>
      rw [hq] at h
      cases hr : Aws.convertAll rest with
      | error e => rw [hr] at h; simp at h
      | ok l2 =>
        rw [hr] at h
        simp only [Except.ok.injEq] at h
        subst h
        rcases List.mem_cons.1 ht with rfl | hmem
        · exact ⟨List.mem_cons_self _ _, hq⟩
        · obtain ⟨h1, h2⟩ := ih l2 hr t hmem
          exact ⟨List.mem_cons_of_mem _ h1, h2⟩

/-- Every row of a successful AWS detail table is the derivation of a kept
row together with its converted quantity. -/
theorem aws_detail_mem (rows : List Aws.Row) (its : List (String × Nat))
    (d : List Aws.Detail) (h : Aws.detailTable rows its = Except.ok d) :
    ∀ r, r ∈ d → ∃ t, (t.1, t.2.1) ∈ Aws.kept rows ∧
      Aws.convertQty t.1.usageQuantityRaw = Except.ok t.2.2 ∧ r = Aws.derive its t := by
  intro r hr
  unfold Aws.detailTable at h
  cases hb : rows.all (fun r => Aws.numericCell r.usageQuantityRaw) with
  | true => rw [hb] at h; simp at h
  | false =>
    rw [hb] at h
    simp only [Bool.false_eq_true, if_false] at h
    cases hc : Aws.convertAll (Aws.kept rows) with
    | error e => rw [hc] at h; simp [Except.map] at h
    | ok l =>
      rw [hc] at h
      simp only [Except.map, Except.ok.injEq] at h
      subst h
      obtain ⟨t, ht, rfl⟩ := List.mem_map.1 hr
      obtain ⟨h1, h2⟩ := aws_convertAll_mem _ _ hc t ht
      exact ⟨t, h1, h2, rfl⟩

/-- A kept pair consists of a row of the recovered list together with its
resolved linked account id. -/
theorem aws_kept_mem (rows : List Aws.Row) (r : Aws.Row) (a : String)
    (h : (r, a) ∈ Aws.kept rows) :
    r ∈ Aws.recover (Aws.filterTotals rows) ∧ r.linkedAccountId = some a := by
  unfold Aws.kept Aws.keepResolved at h
  obtain ⟨x, hx, he⟩ := List.mem_filterMap.1 h
  cases hl : x.linkedAccountId with
  | none => rw [hl] at he; simp at he
  | some b =>
    rw [hl] at he
    simp only [Option.map_some', Option.some.injEq, Prod.mk.injEq] at he
    obtain ⟨rfl, rfl⟩ := he
    exact ⟨hx, hl⟩

/-- Every row of the recovered list is a row of the input list, either
unchanged or with the linked account id replaced by the payer account
id. -/
theorem aws_recover_src (rows : List Aws.Row) (r : Aws.Row) (h : r ∈ Aws.recover rows) :
    ∃ r0, r0 ∈ rows ∧
      (r = r0 ∨ r = { r0 with linkedAccountId := r0.payerAccountId }) := by
  unfold Aws.recover at h
  cases hb : rows.all (fun x => x.linkedAccountId.isNone) with
  | false => rw [hb] at h; simp only [Bool.false_eq_true, if_false] at h; exact ⟨r, h, Or.inl rfl⟩
  | true =>
    rw [hb] at h
    simp only [if_true] at h
    obtain ⟨r0, h0, rfl⟩ := List.mem_map.1 h
    refine ⟨r0, h0, ?_⟩
    cases hp : r0.recordType == "PayerLineItem" with
    | true => simp [hp]
    | false => simp [hp]

/-! ### Claims -/

/-- Claim C1: for every input file accepted by any of the three provider
pipelines, the summary table ends with the single synthetic row labeled
Total, and for every category column the value in that Total row equals
exactly the sum of that column over all per-group rows of the summary
table. -/
theorem c1_total_row_exact_sum :
    (∀ rows instanceTypes, Aws.exOk (Aws.parse_billing_csv rows instanceTypes) = true →
        TotalRowOk (Aws.summaryOf rows instanceTypes))
  ∧ (∀ rows, TotalRowOk (Azure.parse_billing_csv rows).2)
  ∧ (∀ rows, (Gcp.parse_billing_csv rows).isSome = true →
        TotalRowOk (Gcp.summaryOf rows)) := by
  refine ⟨?_, ?_, ?_⟩
  · intro rows its h
    unfold Aws.summaryOf Aws.parse_billing_csv
    unfold Aws.parse_billing_csv Aws.exOk at h
    cases hd : Aws.detailTable rows its with
    | error e => rw [hd] at h; exact Bool.noConfusion h
    | ok d =>
      simp only [Except.map, Aws.summary]
      exact totalRowOk_withTotal _
  · intro rows
    simp only [Azure.parse_billing_csv, Azure.summary]
    exact totalRowOk_withTotal _
  · intro rows h
    unfold Gcp.summaryOf Gcp.parse_billing_csv
    unfold Gcp.parse_billing_csv at h
    cases hd : Gcp.detailTable rows with
    | none => rw [hd] at h; simp at h
    | some d =>
      simp only [Option.map_some', Gcp.summary]
      exact totalRowOk_withTotal _

/-- Witness for claim C1 at the three concrete example files. -/
theorem c1_total_row_exact_sum_witness :
    TotalRowOk (Aws.summaryOf c1AwsRows c1Types)
  ∧ TotalRowOk (Azure.parse_billing_csv c1AzureRows).2
  ∧ TotalRowOk (Gcp.summaryOf c1GcpRows) :=
  ⟨c1_total_row_exact_sum.1 c1AwsRows c1Types rfl,
   c1_total_row_exact_sum.2.1 c1AzureRows,
   c1_total_row_exact_sum.2.2 c1GcpRows rfl⟩

/-- Claim C2: a header holding all AWS required columns classifies as AWS
whatever extra columns it holds; a header missing a required column of
every provider yields the sentinel of an empty label and no parser;
membership is tested in the fixed priority order AWS, Azure, GCP and the
first match is returned. -/
theorem c2_schema_detector :
    (∀ header, hasAll header awsRequiredColumns = true →
        getCsvParser header = ("AWS Billing Summary", some Provider.aws))
  ∧ (∀ header, hasAll header awsRequiredColumns = false →
        hasAll header azureRequiredColumns = true →
        getCsvParser header = ("Azure Billing Summary", some Provider.azure))
  ∧ (∀ header, hasAll header awsRequiredColumns = false →
        hasAll header azureRequiredColumns = false →
        hasAll header gcpRequiredColumns = true →
        getCsvParser header = ("GCP Billing Summary", some Provider.gcp))
  ∧ (∀ header, hasAll header awsRequiredColumns = false →
        hasAll header azureRequiredColumns = false →
        hasAll header gcpRequiredColumns = false →
        getCsvParser header = ("", none)) := by
  refine ⟨?_, ?_, ?_, ?_⟩
  · intro header h1; simp [getCsvParser, h1]
  · intro header h1 h2; simp [getCsvParser, h1, h2]
  · intro header h1 h2 h3; simp [getCsvParser, h1, h2, h3]
  · intro header h1 h2 h3; simp [getCsvParser, h1, h2, h3]

/-- Witness for claim C2: the AWS header with extras, the two other
required-column sets, and a header matching nothing. -/
theorem c2_schema_detector_witness :
    getCsvParser c2AwsHeader = ("AWS Billing Summary", some Provider.aws)
  ∧ getCsvParser azureRequiredColumns = ("Azure Billing Summary", some Provider.azure)
  ∧ getCsvParser gcpRequiredColumns = ("GCP Billing Summary", some Provider.gcp)
  ∧ getCsvParser c2BadHeader = ("", none) :=
  ⟨c2_schema_detector.1 c2AwsHeader (by decide),
   c2_schema_detector.2.1 azureRequiredColumns (by decide) (by decide),
   c2_schema_detector.2.2.1 gcpRequiredColumns (by decide) (by decide) (by decide),
   c2_schema_detector.2.2.2 c2BadHeader (by decide) (by decide) (by decide)⟩

/-- Claim C3 counterexample: the single row of the c3 AWS file has an
unresolvable instance type, so it fails the qualifying condition of the
compute category, yet its value in the compute category column of the
detail table is the missing marker and not exactly zero. -/
theorem c3_counterexample :
    (Aws.detailTableOf c3AwsRows []).map (fun r => (r.instanceVCPU, r.ec2)) = [(none, none)]
  ∧ ((none : Option ℚ) ≠ some 0) := by
  refine ⟨rfl, ?_⟩
  intro h
  exact Option.noConfusion h

/-- Claim C3 (amended): in every pipeline a row failing the qualifying
condition of a category has exactly zero in that category column of the
detail table, except the compute category of the AWS pipeline, where a row
with unresolvable instance type carries the missing marker instead. -/
theorem c3_zero_when_not_qualifying :
    (∀ rows its d, Aws.detailTable rows its = Except.ok d → ∀ r, r ∈ d →
        (Aws.lambdaMask r.row = false → r.lambdaUsage = some 0)
      ∧ (Aws.fargateMask r.row = false → r.fargate = some 0)
      ∧ (r.instanceVCPU = none → r.ec2 = none))
  ∧ (∀ rows r, r ∈ Azure.detailTable rows →
        (¬ r.row.unitOfMeasure = "1 Hour" → r.monthlyUsage = some 0 ∧ r.totalVMs = some 0)
      ∧ (¬ r.row.product = "Functions" → r.totalFunctions = some 0)
      ∧ (¬ r.row.meterCategory = "Azure App Service" → r.totalAppServices = some 0))
  ∧ (∀ rows d r, Gcp.detailTable rows = some d → r ∈ d →
        ((strContains r.row.skuDescription "Instance Core"
            && (r.row.serviceDescription == "Compute Engine")) = false →
          r.computeEngine = some 0)
      ∧ ((strContains r.row.skuDescription "Instance Core"
            && (r.row.serviceDescription == "App Engine")) = false →
          r.appEngine = some 0)
      ∧ ((strContains r.row.skuDescription "CPU Time"
            && (r.row.serviceDescription == "Cloud Functions")) = false →
          r.cloudFunctions = some 0)) := by
  refine ⟨?_, ?_, ?_⟩
  · intro rows its d hd r hr
    obtain ⟨t, hk, hq, rfl⟩ := aws_detail_mem rows its d hd r hr
    refine ⟨?_, ?_, ?_⟩
    · intro hm
      simp only [Aws.derive] at hm ⊢
      simp [hm]
    · intro hm
      simp only [Aws.derive] at hm ⊢
      simp [hm]
    · intro hv
      simp only [Aws.derive] at hv ⊢
      rw [hv]
      rfl
  · intro rows r hr
    obtain ⟨r0, h0, rfl⟩ := List.mem_map.1 hr
    refine ⟨?_, ?_, ?_⟩
    · intro hm
      simp only [Azure.derive] at hm ⊢
      simp [hm, nmul]
    · intro hm
      simp only [Azure.derive] at hm ⊢
      simp [hm]
    · intro hm
      simp only [Azure.derive] at hm ⊢
      simp [hm]
  · intro rows d r hd hr
    cases rows with
    | nil => simp [Gcp.detailTable] at hd
    | cons a rs =>
      simp only [Gcp.detailTable, Option.some.injEq] at hd
      subst hd
      obtain ⟨r0, h0, rfl⟩ := List.mem_map.1 hr
      refine ⟨?_, ?_, ?_⟩
      · intro hm
        simp only [Gcp.derive] at hm ⊢
        simp [hm]
      · intro hm
        simp only [Gcp.derive] at hm ⊢
        simp [hm]
      · intro hm
        simp only [Gcp.derive] at hm ⊢
        simp [hm]

/-- Witness for the amended claim C3 at concrete non-qualifying rows of
all three pipelines. -/
theorem c3_zero_when_not_qualifying_witness :
    (c3AwsDetail.lambdaUsage = some 0 ∧ c3AwsDetail.fargate = some 0 ∧ c3AwsDetail.ec2 = none)
  ∧ ((Azure.derive c3AzureRow).monthlyUsage = some 0 ∧ (Azure.derive c3AzureRow).totalVMs = some 0
      ∧ (Azure.derive c3AzureRow).totalFunctions = some 0
      ∧ (Azure.derive c3AzureRow).totalAppServices = some 0)
  ∧ ((Gcp.derive (Gcp.hoursPerMonth [c3GcpRow]) c3GcpRow).computeEngine = some 0
      ∧ (Gcp.derive (Gcp.hoursPerMonth [c3GcpRow]) c3GcpRow).appEngine = some 0
      ∧ (Gcp.derive (Gcp.hoursPerMonth [c3GcpRow]) c3GcpRow).cloudFunctions = some 0) := by
  have hAws := c3_zero_when_not_qualifying.1 c3AwsRows [] [c3AwsDetail] rfl c3AwsDetail
    (List.mem_singleton.mpr rfl)
  have hAz := c3_zero_when_not_qualifying.2.1 [c3AzureRow] (Azure.derive c3AzureRow)
    (List.mem_singleton.mpr rfl)
  have hGcp := c3_zero_when_not_qualifying.2.2 [c3GcpRow]
    [Gcp.derive (Gcp.hoursPerMonth [c3GcpRow]) c3GcpRow]
    (Gcp.derive (Gcp.hoursPerMonth [c3GcpRow]) c3GcpRow) rfl (List.mem_singleton.mpr rfl)
  refine ⟨⟨hAws.1 (by decide), hAws.2.1 (by decide), hAws.2.2 rfl⟩,
          ⟨(hAz.1 (by decide)).1, (hAz.1 (by decide)).2, hAz.2.1 (by decide), hAz.2.2 (by decide)⟩,
          ⟨hGcp.1 (by decide), hGcp.2.1 (by decide), hGcp.2.2 (by decide)⟩⟩

/-- Claim C4: the GCP pipeline derives the billing period once for the
whole file and applies that single factor to every row; on the example
file spanning the first through the thirty-first of January 2024 the
period is 744 hours and the hourly row with amount 372 yields monthly
usage exactly one half. -/
theorem c4_gcp_file_global_period :
    (∀ rows d, Gcp.detailTable rows = some d → ∀ r, r ∈ d →
        r.monthlyUsage = Gcp.monthlyUsage (Gcp.hoursPerMonth rows) r.row)
  ∧ Gcp.hoursPerMonth c4GcpRows = 744
  ∧ (Gcp.detailTableOf c4GcpRows).map Gcp.Detail.monthlyUsage = [some (1/2)] := by
  have hh : Gcp.hoursPerMonth c4GcpRows = 744 := by
    have h1 : Date.ordinal ⟨2024, 1, 1⟩ = 738886 := by decide
    have h31 : Date.ordinal ⟨2024, 1, 31⟩ = 738916 := by decide
    simp only [Gcp.hoursPerMonth, c4GcpRows, c4GcpRow, List.foldl_nil, h1, h31]
    norm_num
  refine ⟨?_, hh, ?_⟩
  · intro rows d hd r hr
    cases rows with
    | nil => simp [Gcp.detailTable] at hd
    | cons a rs =>
      simp only [Gcp.detailTable, Option.some.injEq] at hd
      subst hd
      obtain ⟨r0, h0, rfl⟩ := List.mem_map.1 hr
      simp [Gcp.derive]
  · have hd : Gcp.detailTableOf c4GcpRows = [Gcp.derive (Gcp.hoursPerMonth c4GcpRows) c4GcpRow] :=
      rfl
    rw [hd, hh]
    have hval : (Gcp.derive (744 : ℚ) c4GcpRow).monthlyUsage
        = some (((372 : Nat) : ℚ) / 744) := rfl
    rw [List.map_singleton, hval]
    norm_num

/-- Witness for claim C4: the file-global factor governs the monthly
usage of the row of the example file. -/
theorem c4_gcp_file_global_period_witness :
    (Gcp.derive (Gcp.hoursPerMonth c4GcpRows) c4GcpRow).monthlyUsage
      = Gcp.monthlyUsage (Gcp.hoursPerMonth c4GcpRows)
          ((Gcp.derive (Gcp.hoursPerMonth c4GcpRows) c4GcpRow).row) :=
  c4_gcp_file_global_period.1 c4GcpRows
    [Gcp.derive (Gcp.hoursPerMonth c4GcpRows) c4GcpRow]
    rfl (Gcp.derive (Gcp.hoursPerMonth c4GcpRows) c4GcpRow) (List.mem_singleton.mpr rfl)

/-- Claim C5: in the AWS pipeline, a detail row whose usage-type trailing
segment is m5.large, with the lookup mapping m5.large to two vCPUs, a
usage quantity of 744 hours, and a start date in a 31-day month, has
compute category value exactly two. -/
theorem c5_aws_compute_example :
    ∀ rows its d, Aws.detailTable rows its = Except.ok d → ∀ r, r ∈ d →
      lastSegment r.row.usageType = "m5.large" →
      its.lookup "m5.large" = some 2 →
      r.usageQuantity = some 744 →
      daysInMonth r.row.usageStartDate.year r.row.usageStartDate.month = 31 →
      r.ec2 = some 2 := by
  intro rows its d hd r hr hseg hlook hq hdays
  obtain ⟨t, hk, hcv, rfl⟩ := aws_detail_mem rows its d hd r hr
  simp only [Aws.derive] at hseg hq hdays ⊢
  rw [hseg, hlook, hq, hdays]
  simp [nmul, ndiv]

/-- Witness for claim C5 at the concrete example file. -/
theorem c5_aws_compute_example_witness : c5AwsDetail.ec2 = some 2 := by
  have hq : c5AwsDetail.usageQuantity = some 744 := by
    have h : c5AwsDetail.usageQuantity = some ((744 : Nat) : ℚ) := rfl
    rw [h]
    norm_num
  exact c5_aws_compute_example c5AwsRows c1Types [c5AwsDetail, c5AwsDetail2] rfl c5AwsDetail
    (List.mem_cons_self _ _) (by decide) (by decide) hq (by decide)

/-- A row whose linked account id is missing never appears among the kept
rows, since every kept pair carries a resolved id. -/
theorem aws_none_not_kept (rows : List Aws.Row) (r : Aws.Row)
    (hnone : r.linkedAccountId = none) : ¬ r ∈ (Aws.kept rows).map Prod.fst := by
  intro hmem
  obtain ⟨p, hp, hfst⟩ := List.mem_map.1 hmem
  obtain ⟨r1, a⟩ := p
  cases hfst
  have h := (aws_kept_mem rows r1 a hp).2
  rw [hnone] at h
  exact Option.noConfusion h

/-- Claim C6: the AWS pipeline computes its summary only from the detail
table; no detail row is an AccountTotal row; a row without a linked
account id is dropped; when every id of the filtered file is absent, a
PayerLineItem row with a payer id is kept carrying that id, and no
recovery happens otherwise. -/
theorem c6_aws_filtering :
    (∀ rows its p, Aws.parse_billing_csv rows its = Except.ok p → p.2 = Aws.summary p.1)
  ∧ (∀ rows its d, Aws.detailTable rows its = Except.ok d → ∀ r, r ∈ d →
        ¬ r.row.recordType = "AccountTotal")
  ∧ (∀ rows r, r.linkedAccountId = none → ¬ r ∈ (Aws.kept rows).map Prod.fst)
  ∧ (∀ rows r, ((Aws.filterTotals rows).all (fun x => x.linkedAccountId.isNone)) = true →
        r ∈ Aws.filterTotals rows → ∀ a, r.recordType = "PayerLineItem" →
        r.payerAccountId = some a →
        ({ r with linkedAccountId := some a }, a) ∈ Aws.kept rows)
  ∧ (∀ rows, ((Aws.filterTotals rows).all (fun x => x.linkedAccountId.isNone)) = false →
        Aws.kept rows = Aws.keepResolved (Aws.filterTotals rows)) := by
  refine ⟨?_, ?_, ?_, ?_, ?_⟩
  · intro rows its p h
    unfold Aws.parse_billing_csv at h
    cases hd : Aws.detailTable rows its with
    | error e => rw [hd] at h; exact Except.noConfusion h
    | ok d =>
      rw [hd] at h
      simp only [Except.map, Except.ok.injEq] at h
      subst h
      rfl
  · intro rows its d hd r hr
    obtain ⟨t, hk, hq, rfl⟩ := aws_detail_mem rows its d hd r hr
    obtain ⟨r1, a, q⟩ := t
    obtain ⟨hrec, hid⟩ := aws_kept_mem rows r1 a hk
    obtain ⟨r0, h0, hcase⟩ := aws_recover_src _ _ hrec
    have hT : ¬ r0.recordType = "AccountTotal" := by
      have hf := (List.mem_filter.1 h0).2
      simpa using hf
    simp only [Aws.derive]
    rcases hcase with rfl | rfl
    · exact hT
    · exact hT
  · intro rows r hnone
    exact aws_none_not_kept rows r hnone
  · intro rows r hall hr a hp hpa
    unfold Aws.kept Aws.keepResolved
    apply List.mem_filterMap.2
    refine ⟨{ r with linkedAccountId := some a }, ?_, rfl⟩
    unfold Aws.recover
    rw [hall]
    simp only [if_true]
    refine List.mem_map.2 ⟨r, hr, ?_⟩
    have hb : (r.recordType == "PayerLineItem") = true := by simp [hp]
    simp [hb, hpa]
  · intro rows hall
    unfold Aws.kept Aws.recover
    rw [hall]
    simp

/-- Witness for claim C6 at the concrete AWS files. -/
theorem c6_aws_filtering_witness :
    Aws.summaryOf c1AwsRows c1Types = Aws.summary (Aws.detailTableOf c1AwsRows c1Types)
  ∧ (¬ c6AwsDetailOk.row.recordType = "AccountTotal")
  ∧ (¬ c6AwsRowNoId ∈ (Aws.kept c6AwsRows).map Prod.fst)
  ∧ ({ c6AwsPayerRow with linkedAccountId := some "999988887777" }, "999988887777")
      ∈ Aws.kept c6AwsAllNullRows
  ∧ Aws.kept c6AwsRows = Aws.keepResolved (Aws.filterTotals c6AwsRows) :=
  ⟨c6_aws_filtering.1 c1AwsRows c1Types
      (Aws.detailTableOf c1AwsRows c1Types, Aws.summaryOf c1AwsRows c1Types) rfl,
   c6_aws_filtering.2.1 c6AwsRows c1Types [c6AwsDetailOk] rfl c6AwsDetailOk
      (List.mem_singleton.mpr rfl),
   c6_aws_filtering.2.2.1 c6AwsRows c6AwsRowNoId rfl,
   c6_aws_filtering.2.2.2.1 c6AwsAllNullRows c6AwsPayerRow rfl (by decide)
      "999988887777" rfl rfl,
   c6_aws_filtering.2.2.2.2 c6AwsRows rfl⟩

/-- Claim C7: in the Azure pipeline a missing or malformed metadata
payload, and one without the VCPUs key, yields a vCPU count of exactly
zero; every input row still produces a detail row; the AWS pipeline
instead nulls the instance name of a row whose vCPU is unresolvable. -/
theorem c7_vcpu_degradation :
    (Azure.extract_vcpu none = 0)
  ∧ (∀ kvs, kvs.lookup "VCPUs" = none → Azure.extract_vcpu (some kvs) = 0)
  ∧ (∀ rows, (Azure.detailTable rows).length = rows.length)
  ∧ (∀ rows r, r ∈ Azure.detailTable rows →
        r.instanceVCPU = Azure.extract_vcpu r.row.additionalInfo)
  ∧ (∀ rows its d, Aws.detailTable rows its = Except.ok d → ∀ r, r ∈ d →
        r.instanceVCPU = none → r.instanceName = none) := by
  refine ⟨rfl, ?_, ?_, ?_, ?_⟩
  · intro kvs h
    simp [Azure.extract_vcpu, h]
  · intro rows
    simp [Azure.detailTable]
  · intro rows r hr
    obtain ⟨r0, h0, rfl⟩ := List.mem_map.1 hr
    simp [Azure.derive]
  · intro rows its d hd r hr hv
    obtain ⟨t, hk, hq, rfl⟩ := aws_detail_mem rows its d hd r hr
    simp only [Aws.derive] at hv ⊢
    rw [hv]
    rfl

/-- Witness for claim C7 at concrete payloads and rows. -/
theorem c7_vcpu_degradation_witness :
    Azure.extract_vcpu (some [("Cores", 4)]) = 0
  ∧ (Azure.detailTable [c7AzureRow]).length = 1
  ∧ (Azure.derive c7AzureRow).instanceVCPU = Azure.extract_vcpu c7AzureRow.additionalInfo
  ∧ c3AwsDetail.instanceName = none :=
  ⟨c7_vcpu_degradation.2.1 [("Cores", 4)] rfl,
   (c7_vcpu_degradation.2.2.1 [c7AzureRow]).trans rfl,
   c7_vcpu_degradation.2.2.2.1 [c7AzureRow] (Azure.derive c7AzureRow)
      (List.mem_singleton.mpr rfl),
   c7_vcpu_degradation.2.2.2.2 c3AwsRows [] [c3AwsDetail] rfl c3AwsDetail
      (List.mem_singleton.mpr rfl) rfl⟩

/-- Success of a run is unchanged by mapping over the payload. -/
theorem aws_exOk_map {α β : Type} (f : α → β) (e : Except Aws.Error α) :
    Aws.exOk (Except.map f e) = Aws.exOk e := by
  cases e <;> rfl

/-- A quantity cell is bad exactly when its conversion fails. -/
theorem aws_badCell_eq (r : Aws.Row) :
    Aws.badCell r = !(Aws.exOk (Aws.convertQty r.usageQuantityRaw)) := by
  cases hraw : r.usageQuantityRaw with
  | none => simp [Aws.badCell, Aws.convertQty, hraw, Aws.exOk]
  | some s =>
    cases hp : parseDecimal? (stripCommas s) with
    | none => simp [Aws.badCell, Aws.convertQty, hraw, hp, Aws.exOk]
    | some q => simp [Aws.badCell, Aws.convertQty, hraw, hp, Aws.exOk]

/-- The conversion pass fails exactly when some row of the list carries a
bad quantity cell. -/
theorem aws_convertAll_error_iff (l : List (Aws.Row × String)) :
    Aws.exOk (Aws.convertAll l) = false ↔ ∃ p, p ∈ l ∧ Aws.badCell p.1 = true := by
  induction l with
  | nil => simp [Aws.convertAll, Aws.exOk]
  | cons p rest ih =>
    rw [Aws.convertAll]
    cases hq : Aws.convertQty p.1.usageQuantityRaw with
    | error e =>
      constructor
      · intro _
        refine ⟨p, List.mem_cons_self _ _, ?_⟩
        rw [aws_badCell_eq, hq]
        rfl
      · intro _
        rfl
    | ok q =>
      cases hr : Aws.convertAll rest with
      | error e2 =>
        constructor
        · intro _
          obtain ⟨p2, hp2, hb⟩ := ih.mp (by rw [hr]; rfl)
          exact ⟨p2, List.mem_cons_of_mem _ hp2, hb⟩
        · intro _
          rfl
      | ok l2 =>
        constructor
        · intro hFalse
          exact Bool.noConfusion hFalse
        · rintro ⟨p2, hp2, hb⟩
          rcases List.mem_cons.1 hp2 with rfl | hmem
          · rw [aws_badCell_eq, hq] at hb
            exact Bool.noConfusion hb
          · have h2 := ih.mpr ⟨p2, hmem, hb⟩
            rw [hr] at h2
            exact Bool.noConfusion h2

/-- Claim C8 counterexample: every quantity cell of the c8 file is numeric
after the separator stripping, yet the run aborts, because the fully
numeric column makes the str accessor fail. -/
theorem c8_counterexample :
    (c8AwsRows.all
        (fun r => (parseDecimal? (stripCommas (r.usageQuantityRaw.getD ""))).isSome) = true)
  ∧ Aws.exOk (Aws.detailTable c8AwsRows c1Types) = false :=
  ⟨rfl, rfl⟩

/-- Claim C8 (amended): the AWS pipeline strips thousands separators from
every retained quantity cell before conversion, and the run aborts exactly
when either every raw quantity cell of the file is a plain numeral, so the
column was inferred numeric and the str accessor is undefined, or some
kept row has a cell that is still not numeric after stripping. -/
theorem c8_data_error_condition :
    (∀ rows its, Aws.exOk (Aws.detailTable rows its) = false ↔
        (rows.all (fun r => Aws.numericCell r.usageQuantityRaw) = true
          ∨ ∃ p, p ∈ Aws.kept rows ∧ Aws.badCell p.1 = true))
  ∧ (∀ rows its d, Aws.detailTable rows its = Except.ok d → ∀ r, r ∈ d → ∀ s,
        r.row.usageQuantityRaw = some s →
        r.usageQuantity = parseDecimal? (stripCommas s)) := by
  constructor
  · intro rows its
    unfold Aws.detailTable
    cases hb : rows.all (fun r => Aws.numericCell r.usageQuantityRaw) with
    | true => simp [Aws.exOk]
    | false =>
      simp only [Bool.false_eq_true, if_false]
      rw [aws_exOk_map, aws_convertAll_error_iff]
      simp
  · intro rows its d hd r hr s hs
    obtain ⟨t, hk, hcv, rfl⟩ := aws_detail_mem rows its d hd r hr
    obtain ⟨r1, a, q⟩ := t
    simp only [Aws.derive] at hs ⊢
    rw [hs] at hcv
    simp only [Aws.convertQty] at hcv
    cases hp : parseDecimal? (stripCommas s) with
    | none => rw [hp] at hcv; exact Except.noConfusion hcv
    | some v =>
      rw [hp] at hcv
      simp only [Except.ok.injEq] at hcv
      exact hcv.symm

/-- Witness for the amended claim C8: the all-numeric file aborts, and the
kept m5.large row of the c5 file carries its stripped converted cell. -/
theorem c8_data_error_condition_witness :
    Aws.exOk (Aws.detailTable c8AwsRows c1Types) = false
  ∧ c5AwsDetail.usageQuantity = parseDecimal? (stripCommas "744") :=
  ⟨(c8_data_error_condition.1 c8AwsRows c1Types).mpr (Or.inl rfl),
   c8_data_error_condition.2 c5AwsRows c1Types [c5AwsDetail, c5AwsDetail2] rfl c5AwsDetail
      (List.mem_cons_self _ _) "744" rfl⟩

/-- Claim C9 counterexample: a cache file holding valid JSON whose top
level is not an object, here an empty array, makes the load raise instead
of returning the empty mapping. -/
theorem c9_counterexample :
    Cache.load_instance_types_from_cache (some (Cache.JVal.jarr []))
      = Except.error Cache.CacheError.attributeError
  ∧ Cache.load_instance_types_from_cache (some (Cache.JVal.jarr []))
      ≠ Except.ok (Cache.JVal.jobj []) := by
  refine ⟨rfl, ?_⟩
  intro h
  exact Except.noConfusion h

/-- Claim C9 (amended): saving a mapping and loading it back returns the
identical mapping; an absent file or one that does not parse as JSON
yields the empty mapping; but a parseable file whose top level is not an
object raises an attribute error. -/
theorem c9_cache_roundtrip :
    (∀ m, Cache.load_instance_types_from_cache (Cache.save_instance_types_to_cache m)
        = Except.ok (Cache.encodeTypes m))
  ∧ (∀ m, Cache.decodeTypes (Cache.encodeTypes m) = some m)
  ∧ Cache.load_instance_types_from_cache none = Except.ok (Cache.JVal.jobj [])
  ∧ (∀ v, Cache.isObj v = false →
        Cache.load_instance_types_from_cache (some v)
          = Except.error Cache.CacheError.attributeError) := by
  refine ⟨?_, ?_, rfl, ?_⟩
  · intro m
    rfl
  · intro m
    induction m with
    | nil => rfl
    | cons p rest ih =>
      simp only [Cache.encodeTypes, List.map_cons, Cache.decodeTypes, Cache.decodeEntries] at ih ⊢
      rw [ih]
  · intro v hv
    cases v with
    | jnum n => rfl
    | jstr s => rfl
    | jarr l => rfl
    | jobj e => simp [Cache.isObj] at hv

/-- Witness for the amended claim C9 at a concrete mapping and a concrete
non-object cache content. -/
theorem c9_cache_roundtrip_witness :
    Cache.load_instance_types_from_cache (Cache.save_instance_types_to_cache c9Types)
      = Except.ok (Cache.encodeTypes c9Types)
  ∧ Cache.decodeTypes (Cache.encodeTypes c9Types) = some c9Types
  ∧ Cache.load_instance_types_from_cache (some (Cache.JVal.jnum 7))
      = Except.error Cache.CacheError.attributeError :=
  ⟨c9_cache_roundtrip.1 c9Types, c9_cache_roundtrip.2.1 c9Types,
   c9_cache_roundtrip.2.2.2 (Cache.JVal.jnum 7) rfl⟩

/-- Claim C10: a well-formed AWS file, classified as AWS by the detector,
whose quantity cells are all plain numerals without separators, makes the
pipeline abort with the str accessor error, because the stripping step is
only defined when the column was read as text. -/
theorem c10_numeric_column_aborts :
    getCsvParser c10Header = ("AWS Billing Summary", some Provider.aws)
  ∧ (c10AwsRows.all
      (fun r => (r.usageQuantityRaw.getD "").toList.all (fun c => !(c == ','))) = true)
  ∧ (c10AwsRows.all (fun r => Aws.numericCell r.usageQuantityRaw) = true)
  ∧ Aws.parse_billing_csv c10AwsRows c1Types = Except.error Aws.Error.strAccessor :=
  ⟨rfl, rfl, rfl, rfl⟩

end BillingParser
